import Mathlib

/-!
Shallow embedding of the MCP-Bridge adapter (`src/index.js`): keyword
extraction, the search-with-fallback loop, document detail fetch, and the
`call_tool` handler, together with theorems checking the specification's
claims about them.

Upstream HTTP traffic is abstracted by oracles: a search oracle giving the
outcome of the i-th `documents.search` call and a document oracle giving the
outcome of the `documents.info` call for a given document id.  The loop also
records a trace of the upstream calls it issues, so that claims about which
calls are made (and in which order) are statable.
-/

deriving instance DecidableEq for Except

namespace MCPBridge

/-! ## JavaScript-flavoured string primitives -/

/-- The characters matched by the JavaScript regex class used in
`query.split(/\s+/)` (line 60 of `src/index.js`). -/
def isJsWhitespace (c : Char) : Bool :=
  c = ' ' || c = '\t' || c = '\n' || c = '\x0b' || c = '\x0c' || c = '\r' ||
  c = '\u00A0' || c = '\u1680' || ('\u2000' ≤ c && c ≤ '\u200A') ||
  c = '\u2028' || c = '\u2029' || c = '\u202F' || c = '\u205F' ||
  c = '\u3000' || c = '\uFEFF'

/-- Worker for `splitWs`.  The accumulator is `some acc` while a token is
being built and `none` while a whitespace run that already ended a token is
being consumed.  This mirrors JS `s.split(/\s+/)`: a leading whitespace run
yields a leading empty token and a trailing run a trailing empty token. -/
def splitWsGo : List Char → Option (List Char) → List String
  | [], some acc => [String.mk acc.reverse]
  | [], none => [""]
  | c :: cs, some acc =>
    if isJsWhitespace c then String.mk acc.reverse :: splitWsGo cs none
    else splitWsGo cs (some (c :: acc))
  | c :: cs, none =>
    if isJsWhitespace c then splitWsGo cs none
    else splitWsGo cs (some [c])

/-- JS `s.split(/\s+/)`: split on maximal whitespace runs. -/
def splitWs (s : String) : List String :=
  splitWsGo s.data (some [])

/-- JS `s.toLowerCase()`, restricted to the ASCII mapping (the only case the
adapter's stopword / alphanumeric tests depend on). -/
def jsToLower (s : String) : String :=
  String.mk (s.data.map Char.toLower)

/-- JS `a || b` where `a` is a possibly-absent string: `b` is used when `a`
is `undefined`/`null` (modelled `none`) or the empty string (falsy). -/
def jsOrStr : Option String → String → String
  | some s, b => if s = "" then b else s
  | none, b => b

/-- JS `s.substring(0, endIdx)`: a negative (or otherwise below-zero) end
index is treated as 0, an end index beyond the length as the length. -/
def jsSubstring0 (s : String) (endIdx : Int) : String :=
  String.mk (s.data.take endIdx.toNat)

/-- JS `s.replace(/\/$/, '')`: remove one trailing slash if present
(lines 68 and 96 of `src/index.js`). -/
def stripTrailingSlash (s : String) : String :=
  if s.data.getLast? = some '/' then String.mk s.data.dropLast else s

/-! ## Keyword extraction (`extractKeywords`, lines 55–65) -/

/-- The stopword list of `extractKeywords` (line 57). -/
def stopWords : List String :=
  ["how", "do", "i", "to", "the", "a", "an", "and", "or", "but", "in", "on",
   "at", "what", "where", "when", "why", "which", "who", "whom", "whose",
   "can", "could", "should", "would", "will"]

/-- Membership in the ASCII character class `[a-zA-Z0-9]`. -/
def isAsciiAlphanumeric (c : Char) : Bool :=
  ('a' ≤ c && c ≤ 'z') || ('A' ≤ c && c ≤ 'Z') || ('0' ≤ c && c ≤ '9')

/-- JS `word.match(/^[^a-zA-Z0-9]+$/)` is non-null: the word is non-empty and
every character lies outside `[a-zA-Z0-9]` (line 63). -/
def isPunctuationOnly (w : String) : Bool :=
  w.length > 0 && w.data.all (fun c => !(isAsciiAlphanumeric c))

/-- `extractKeywords` (lines 55–65): lowercase, split on whitespace runs, and
keep words that are longer than 2 characters, not stopwords, and not made of
punctuation only. -/
def extractKeywords (query : String) : List String :=
  (splitWs (jsToLower query)).filter (fun word =>
    word.length > 2 && !(stopWords.contains word) && !(isPunctuationOnly word))

/-- Restatement of the keyword rules in the specification's words: drop a
token iff its length is ≤ 2 characters, or it exactly matches the stopword
list, or it consists entirely of non-alphanumeric characters; keep the rest
in order, duplicates preserved. -/
def keywordsSpec (query : String) : List String :=
  (splitWs (jsToLower query)).filter (fun t =>
    !(t.length ≤ 2 || stopWords.contains t ||
      t.data.all (fun c => !(isAsciiAlphanumeric c))))

/-! ## Data model -/

/-- A search result item as returned to the MCP caller (lines 112–117). -/
structure DocumentSummary where
  id : String
  title : String
  text : String
  url : String
  deriving DecidableEq, Repr

/-- The `document` object inside a raw search hit (`{id, title, urlId}`);
`none` models an absent (`undefined`) field. -/
structure HitDocument where
  id : Option String
  title : Option String
  urlId : Option String
  deriving DecidableEq, Repr

/-- A raw hit of `documents.search`: a document descriptor plus a short
context snippet. -/
structure SearchHit where
  document : HitDocument
  context : Option String
  deriving DecidableEq, Repr

/-- The upstream detail-fetch result (`documents.info` response body
`data.data`); only its `text` field is consumed. -/
structure RawDocument where
  text : Option String
  deriving DecidableEq, Repr

/-- The `data.data` field of a `documents.search` response, as tested by
`response.data.data && Array.isArray(response.data.data)` (line 108):
either absent (a falsy value such as `undefined`/`null`), or present but
not an array, or an array of hits.  Arrays are always truthy in JS, so the
source's test holds exactly for the `array` case. -/
inductive DataField where
  | absent
  | nonArray
  | array (hits : List SearchHit)
  deriving DecidableEq, Repr

/-- Outcome of one upstream `documents.search` HTTP call: either the request
rejects (with `isAxiosError`, the optional `error.response.data.message`,
and `error.message`), or it resolves with a `data.data` field. -/
inductive SearchOutcome where
  | httpError (isAxiosError : Bool) (responseMessage : Option String)
      (errorMessage : String)
  | ok (data : DataField)
  deriving DecidableEq, Repr

/-- Outcome of one upstream `documents.info` HTTP call: either the request
rejects, or it resolves with an optional `data.data` document. -/
inductive DocFetchOutcome where
  | failure
  | success (data : Option RawDocument)
  deriving DecidableEq, Repr

/-- MCP error codes used by the adapter. -/
inductive ErrCode where
  | methodNotFound
  | invalidParams
  | internalError
  deriving DecidableEq, Repr

/-- A thrown value: an already-typed MCP error, or any other error
(represented by its string rendering). -/
inductive ThrownError where
  | mcpError (code : ErrCode) (message : String)
  | other (message : String)
  deriving DecidableEq, Repr

/-- One upstream `documents.search` request as issued by the loop
(lines 96–107): endpoint URL (trailing slash of the instance URL stripped),
the single-keyword query, `limit = topK` and `offset = 0`. -/
structure UpstreamSearchCall where
  url : String
  query : String
  limit : Int
  offset : Int
  deriving DecidableEq, Repr

def mkSearchCall (instanceUrl : String) (topK : Int)
    (searchTerm : String) : UpstreamSearchCall :=
  { url := stripTrailingSlash instanceUrl ++ "/api/documents.search"
    query := searchTerm
    limit := topK
    offset := 0 }

/-- Trace of the upstream calls a run issues: search calls in order, and the
document ids passed to `documents.info`. -/
structure Trace where
  searchCalls : List UpstreamSearchCall
  docFetches : List (Option String)
  deriving DecidableEq, Repr

def emptyTrace : Trace := ⟨[], []⟩

/-! ## Document detail fetch (`getDocument`, lines 66–83) -/

/-- `getDocument` (lines 66–83): on a successful call return
`response.data.data`; on any failure log and return `null`.  The try/catch
swallows every error, so the function never throws — in the embedding it is
total and `Option`-valued (`none` covers both the `null` sentinel and an
absent `data.data`, which the caller treats identically as falsy). -/
def getDocument (outcome : DocFetchOutcome) : Option RawDocument :=
  match outcome with
  | .failure => none
  | .success d => d

/-! ## Search with fallback (`searchDocuments`, lines 84–132) -/

/-- Build one `DocumentSummary` from a raw hit (lines 109–117): fetch the
full document; use its `text` when the fetch yields a document, otherwise
the hit's own `context` snippet; truncate either to `maxChars`; missing
`id`/`title` default to `''`; the `url` is built from the *raw* instance URL
(line 116 uses `this.instanceUrl`, not the slash-stripped `baseUrl`). -/
def mkSummary (instanceUrl : String) (maxChars : Int)
    (docOracle : Option String → DocFetchOutcome)
    (result : SearchHit) : DocumentSummary :=
  let doc := result.document
  let fullDoc := getDocument (docOracle doc.id)
  { id := jsOrStr doc.id ""
    title := jsOrStr doc.title ""
    text := match fullDoc with
      | some fd => jsSubstring0 (jsOrStr fd.text "") maxChars
      | none => jsSubstring0 (jsOrStr result.context "") maxChars
    url := instanceUrl ++ "/doc/" ++ jsOrStr doc.urlId (jsOrStr doc.id "") }

/-- The fallback loop of `searchDocuments` (lines 92–121):
`for (let i = 0; i < keywords.length && documents.length === 0; i++)`.
Each iteration issues one search call for the current keyword; an axios
failure aborts the whole operation as an MCP internal error (lines 125–131),
any other thrown value is rethrown; a response whose `data.data` is an array
appends the mapped hits to `documents`; otherwise `documents` is left
unchanged.  The second component traces the upstream calls issued. -/
def searchLoop (instanceUrl : String) (topK maxChars : Int)
    (searchOracle : Nat → SearchOutcome)
    (docOracle : Option String → DocFetchOutcome) :
    List String → Nat → List DocumentSummary →
      Except ThrownError (List DocumentSummary) × Trace
  | [], _, documents => (.ok documents, emptyTrace)
  | searchTerm :: keywordsRest, i, documents =>
    if documents.length = 0 then
      match searchOracle i with
      | .httpError true responseMessage errorMessage =>
        (.error (.mcpError .internalError
            ("Outline API error: " ++ jsOrStr responseMessage errorMessage ++
             " (URL: " ++ instanceUrl ++ ")")),
         ⟨[mkSearchCall instanceUrl topK searchTerm], []⟩)
      | .httpError false _ errorMessage =>
        (.error (.other errorMessage),
         ⟨[mkSearchCall instanceUrl topK searchTerm], []⟩)
      | .ok (.array hits) =>
        let results := hits.map (mkSummary instanceUrl maxChars docOracle)
        let r := searchLoop instanceUrl topK maxChars searchOracle docOracle
          keywordsRest (i + 1) (documents ++ results)
        (r.1, ⟨mkSearchCall instanceUrl topK searchTerm :: r.2.searchCalls,
               hits.map (fun h => h.document.id) ++ r.2.docFetches⟩)
      | .ok .absent =>
        let r := searchLoop instanceUrl topK maxChars searchOracle docOracle
          keywordsRest (i + 1) documents
        (r.1, ⟨mkSearchCall instanceUrl topK searchTerm :: r.2.searchCalls,
               r.2.docFetches⟩)
      | .ok .nonArray =>
        let r := searchLoop instanceUrl topK maxChars searchOracle docOracle
          keywordsRest (i + 1) documents
        (r.1, ⟨mkSearchCall instanceUrl topK searchTerm :: r.2.searchCalls,
               r.2.docFetches⟩)
    else (.ok documents, emptyTrace)

/-- `searchDocuments(query, topK, maxChars)` (lines 84–132): extract
keywords and run the fallback loop starting from an empty result list. -/
def searchDocuments (instanceUrl query : String) (topK maxChars : Int)
    (searchOracle : Nat → SearchOutcome)
    (docOracle : Option String → DocFetchOutcome) :
    Except ThrownError (List DocumentSummary) × Trace :=
  searchLoop instanceUrl topK maxChars searchOracle docOracle
    (extractKeywords query) 0 []

/-- The hits a search attempt contributes: an array `data.data` contributes
its elements; an absent or non-array `data.data` contributes none. -/
def attemptHits : DataField → List SearchHit
  | .array hits => hits
  | _ => []

/-! ## The `call_tool` handler (`setupToolHandlers`, lines 164–195) -/

/-- A JavaScript value, as far as the handler's duck-typed argument checks
observe it. -/
inductive JsValue where
  | undefined
  | null
  | boolean (b : Bool)
  | num (n : Int)
  | str (s : String)
  | obj (fields : List (String × JsValue))
  | arr (elems : List JsValue)

/-- JS `typeof v` (note `typeof null === 'object'` and arrays are
`'object'` too). -/
def jsTypeof : JsValue → String
  | .undefined => "undefined"
  | .null => "object"
  | .boolean _ => "boolean"
  | .num _ => "number"
  | .str _ => "string"
  | .obj _ => "object"
  | .arr _ => "object"

/-- JS truthiness of a value. -/
def truthy : JsValue → Bool
  | .undefined => false
  | .null => false
  | .boolean b => b
  | .num n => n != 0
  | .str s => s != ""
  | .obj _ => true
  | .arr _ => true

def lookupField : List (String × JsValue) → String → JsValue
  | [], _ => .undefined
  | (k, v) :: rest, key => if k = key then v else lookupField rest key

/-- JS named-property access `v.key`; non-objects yield `undefined` (the
handler only reaches this after the payload passed the object check, so the
throwing cases of `null`/`undefined` access are unreachable there). -/
def getField : JsValue → String → JsValue
  | .obj fields, key => lookupField fields key
  | _, _ => .undefined

/-- The string payload of a value already known to have `typeof`
`'string'`. -/
def jsStr : JsValue → String
  | .str s => s
  | _ => ""

/-- Line 176: `typeof args.top_k === 'number' ? args.top_k : 3`. -/
def resolveTopK : JsValue → Int
  | .num n => n
  | _ => 3

/-- Line 177: `typeof args.max_chars === 'number' ? args.max_chars : 4000`. -/
def resolveMaxChars : JsValue → Int
  | .num n => n
  | _ => 4000

/-- The catch block of the handler (lines 189–194): an `McpError` is
rethrown as-is; any other thrown value is wrapped as an internal error. -/
def wrapSearchError :
    Except ThrownError (List DocumentSummary) →
      Except ThrownError (List DocumentSummary)
  | .ok docs => .ok docs
  | .error (.mcpError c m) => .error (.mcpError c m)
  | .error (.other s) =>
    .error (.mcpError .internalError ("Failed to search documents: " ++ s))

/-- The `call_tool` request parameters: the tool name and the `arguments`
value (`undefined` when the field is absent). -/
structure CallToolRequest where
  name : String
  arguments : JsValue

/-- The `call_tool` handler (lines 164–195).  `searchFn` abstracts
`this.searchDocuments` together with the trace of upstream calls it issues;
the rejection branches run before it and so issue no upstream call (their
trace is empty).  The successful result is the document list (the source
wraps it as pretty-printed JSON in a single text content block; the
serialization is not modelled). -/
def handleCallTool (req : CallToolRequest)
    (searchFn : String → Int → Int →
      Except ThrownError (List DocumentSummary) × Trace) :
    Except ThrownError (List DocumentSummary) × Trace :=
  if req.name ≠ "search_documents" then
    (.error (.mcpError .methodNotFound ("Unknown tool: " ++ req.name)),
     emptyTrace)
  else if !(truthy req.arguments) || jsTypeof req.arguments ≠ "object" then
    (.error (.mcpError .invalidParams "Arguments must be an object"),
     emptyTrace)
  else if jsTypeof (getField req.arguments "query") ≠ "string" then
    (.error (.mcpError .invalidParams "Query must be a string"), emptyTrace)
  else
    let query := jsStr (getField req.arguments "query")
    let top_k := resolveTopK (getField req.arguments "top_k")
    let max_chars := resolveMaxChars (getField req.arguments "max_chars")
    let r := searchFn query top_k max_chars
    (wrapSearchError r.1, r.2)

/-! ## Helper lemmas about the fallback loop -/

/-- Once the accumulated list is non-empty the loop stops: no further
upstream call is issued and the accumulated list is returned as-is. -/
theorem searchLoop_of_ne_nil (instanceUrl : String) (topK maxChars : Int)
    (searchOracle : Nat → SearchOutcome)
    (docOracle : Option String → DocFetchOutcome)
    (l : List String) (i : Nat) (documents : List DocumentSummary)
    (h : documents ≠ []) :
    searchLoop instanceUrl topK maxChars searchOracle docOracle l i documents
      = (.ok documents, emptyTrace) := by
  cases l with
  | nil => rfl
  | cons a as =>
    have hlen : ¬ documents.length = 0 := by
      simpa [List.length_eq_zero] using h
    simp [searchLoop, hlen]

/-- An attempt that contributes no hits (absent / non-array `data.data`, or
an empty array) leaves the accumulated list unchanged, adds its own search
call to the trace, fetches no documents, and hands over to the next
keyword. -/
theorem searchLoop_cons_skip (instanceUrl : String) (topK maxChars : Int)
    (searchOracle : Nat → SearchOutcome)
    (docOracle : Option String → DocFetchOutcome)
    (searchTerm : String) (keywordsRest : List String) (i : Nat)
    (d : DataField) (ho : searchOracle i = .ok d) (hd : attemptHits d = []) :
    searchLoop instanceUrl topK maxChars searchOracle docOracle
        (searchTerm :: keywordsRest) i []
      = ((searchLoop instanceUrl topK maxChars searchOracle docOracle
            keywordsRest (i + 1) []).1,
         ⟨mkSearchCall instanceUrl topK searchTerm ::
            (searchLoop instanceUrl topK maxChars searchOracle docOracle
              keywordsRest (i + 1) []).2.searchCalls,
          (searchLoop instanceUrl topK maxChars searchOracle docOracle
            keywordsRest (i + 1) []).2.docFetches⟩) := by
  cases d with
  | absent => simp [searchLoop, ho]
  | nonArray => simp [searchLoop, ho]
  | array hits =>
    have : hits = [] := by simpa [attemptHits] using hd
    subst this
    simp [searchLoop, ho]

/-- An attempt whose `data.data` is a non-empty array wins: the result is
exactly that call's hits, mapped to summaries, and the loop stops. -/
theorem searchLoop_cons_win (instanceUrl : String) (topK maxChars : Int)
    (searchOracle : Nat → SearchOutcome)
    (docOracle : Option String → DocFetchOutcome)
    (searchTerm : String) (keywordsRest : List String) (i : Nat)
    (hits : List SearchHit) (hne : hits ≠ [])
    (ho : searchOracle i = .ok (.array hits)) :
    searchLoop instanceUrl topK maxChars searchOracle docOracle
        (searchTerm :: keywordsRest) i []
      = (.ok (hits.map (mkSummary instanceUrl maxChars docOracle)),
         ⟨[mkSearchCall instanceUrl topK searchTerm],
          hits.map (fun h => h.document.id)⟩) := by
  have hmap : hits.map (mkSummary instanceUrl maxChars docOracle) ≠ [] := by
    simpa using hne
  simp [searchLoop, ho,
    searchLoop_of_ne_nil instanceUrl topK maxChars searchOracle docOracle
      keywordsRest (i + 1) _ hmap, emptyTrace]

/-- The general short-circuit shape: if the first `j` attempts contribute no
hits and attempt `j` returns a non-empty array, the loop run from an empty
accumulator issues exactly one call per keyword up to and including keyword
`j` and returns exactly attempt `j`'s hits. -/
theorem searchLoop_firstWin (instanceUrl : String) (topK maxChars : Int)
    (searchOracle : Nat → SearchOutcome)
    (docOracle : Option String → DocFetchOutcome) :
    ∀ (j : Nat) (l : List String) (i : Nat) (hits : List SearchHit),
      j < l.length →
      (∀ k, k < j → ∃ d, searchOracle (i + k) = .ok d ∧ attemptHits d = []) →
      searchOracle (i + j) = .ok (.array hits) →
      hits ≠ [] →
      searchLoop instanceUrl topK maxChars searchOracle docOracle l i []
        = (.ok (hits.map (mkSummary instanceUrl maxChars docOracle)),
           ⟨(l.take (j + 1)).map (mkSearchCall instanceUrl topK),
            hits.map (fun h => h.document.id)⟩) := by
  intro j
  induction j with
  | zero =>
    intro l i hits hj hprev hwin hne
    match l, hj with
    | searchTerm :: keywordsRest, _ =>
      rw [searchLoop_cons_win instanceUrl topK maxChars searchOracle docOracle
        searchTerm keywordsRest i hits hne (by simpa using hwin)]
      simp
  | succ j ih =>
    intro l i hits hj hprev hwin hne
    match l, hj with
    | searchTerm :: keywordsRest, hj =>
      obtain ⟨d, hd, hdnil⟩ := hprev 0 (Nat.succ_pos j)
      rw [searchLoop_cons_skip instanceUrl topK maxChars searchOracle docOracle
        searchTerm keywordsRest i d (by simpa using hd) hdnil]
      have hrest : j < keywordsRest.length := by
        simpa [Nat.succ_lt_succ_iff] using hj
      have hprev' : ∀ k, k < j →
          ∃ d, searchOracle (i + 1 + k) = .ok d ∧ attemptHits d = [] := by
        intro k hk
        have := hprev (k + 1) (Nat.succ_lt_succ hk)
        simpa [Nat.add_assoc, Nat.add_comm, Nat.add_left_comm] using this
      have hwin' : searchOracle (i + 1 + j) = .ok (.array hits) := by
        simpa [Nat.add_assoc, Nat.add_comm, Nat.add_left_comm] using hwin
      rw [ih keywordsRest (i + 1) hits hrest hprev' hwin' hne]
      simp

/-- Every item in a successful loop result either was already accumulated or
is the summary of some raw hit. -/
theorem searchLoop_mem_shape (instanceUrl : String) (topK maxChars : Int)
    (searchOracle : Nat → SearchOutcome)
    (docOracle : Option String → DocFetchOutcome) :
    ∀ (l : List String) (i : Nat) (documents docs : List DocumentSummary)
      (tr : Trace),
      searchLoop instanceUrl topK maxChars searchOracle docOracle l i documents
        = (.ok docs, tr) →
      ∀ d ∈ docs, d ∈ documents ∨
        ∃ hit : SearchHit, d = mkSummary instanceUrl maxChars docOracle hit := by
  intro l
  induction l with
  | nil =>
    intro i documents docs tr h d hd
    obtain rfl : documents = docs := Except.ok.inj (congrArg Prod.fst h)
    exact Or.inl hd
  | cons searchTerm keywordsRest ih =>
    intro i documents docs tr h d hd
    by_cases hnil : documents = []
    · subst hnil
      cases ho : searchOracle i with
      | httpError isAx rm m =>
        exfalso
        cases isAx <;> simp [searchLoop, ho] at h
      | ok data =>
        cases data with
        | absent =>
          rw [searchLoop_cons_skip instanceUrl topK maxChars searchOracle
            docOracle searchTerm keywordsRest i _ ho rfl,
            Prod.mk.injEq] at h
          exact ih (i + 1) [] docs _ (Prod.ext_iff.mpr ⟨h.1, rfl⟩) d hd
        | nonArray =>
          rw [searchLoop_cons_skip instanceUrl topK maxChars searchOracle
            docOracle searchTerm keywordsRest i _ ho rfl,
            Prod.mk.injEq] at h
          exact ih (i + 1) [] docs _ (Prod.ext_iff.mpr ⟨h.1, rfl⟩) d hd
        | array hits =>
          by_cases hhits : hits = []
          · subst hhits
            rw [searchLoop_cons_skip instanceUrl topK maxChars searchOracle
              docOracle searchTerm keywordsRest i _ ho rfl,
              Prod.mk.injEq] at h
            exact ih (i + 1) [] docs _ (Prod.ext_iff.mpr ⟨h.1, rfl⟩) d hd
          · rw [searchLoop_cons_win instanceUrl topK maxChars searchOracle
              docOracle searchTerm keywordsRest i hits hhits ho,
              Prod.mk.injEq] at h
            obtain rfl :
                hits.map (mkSummary instanceUrl maxChars docOracle) = docs :=
              Except.ok.inj h.1
            obtain ⟨hit, _, hEq⟩ := List.mem_map.mp hd
            exact Or.inr ⟨hit, hEq.symm⟩
    · rw [searchLoop_of_ne_nil instanceUrl topK maxChars searchOracle docOracle
        (searchTerm :: keywordsRest) i documents hnil, Prod.mk.injEq] at h
      exact Or.inl (by rw [Except.ok.inj h.1]; exact hd)

/-- Truncation bound: the text produced by `jsSubstring0` has length at most
`max endIdx 0`. -/
theorem jsSubstring0_length_le (s : String) (endIdx : Int) :
    ((jsSubstring0 s endIdx).length : Int) ≤ max endIdx 0 := by
  have h : (jsSubstring0 s endIdx).length = min endIdx.toNat s.data.length := by
    show (s.data.take endIdx.toNat).length = _
    exact List.length_take _ _
  omega

/-- The `text` of any summary is a `jsSubstring0 _ maxChars`, hence obeys the
truncation bound. -/
theorem mkSummary_text_le (instanceUrl : String) (maxChars : Int)
    (docOracle : Option String → DocFetchOutcome) (hit : SearchHit) :
    (((mkSummary instanceUrl maxChars docOracle hit).text.length : Int))
      ≤ max maxChars 0 := by
  rcases hdoc : getDocument (docOracle hit.document.id) with _ | fd
  · have ht : (mkSummary instanceUrl maxChars docOracle hit).text
        = jsSubstring0 (jsOrStr hit.context "") maxChars := by
      simp [mkSummary, hdoc]
    rw [ht]
    exact jsSubstring0_length_le _ _
  · have ht : (mkSummary instanceUrl maxChars docOracle hit).text
        = jsSubstring0 (jsOrStr fd.text "") maxChars := by
      simp [mkSummary, hdoc]
    rw [ht]
    exact jsSubstring0_length_le _ _

/-- The `url` of any summary is built from the raw instance URL. -/
theorem mkSummary_url (instanceUrl : String) (maxChars : Int)
    (docOracle : Option String → DocFetchOutcome) (hit : SearchHit) :
    (mkSummary instanceUrl maxChars docOracle hit).url
      = instanceUrl ++ "/doc/"
          ++ jsOrStr hit.document.urlId (jsOrStr hit.document.id "") := rfl

/-- The keyword filter rejects any token that is short, a stopword, or
entirely non-alphanumeric. -/
theorem keyword_filter_false (t : String)
    (h : t.length ≤ 2 ∨ t ∈ stopWords ∨
      t.data.all (fun c => !(isAsciiAlphanumeric c)) = true) :
    (decide (t.length > 2) && !(stopWords.contains t)
      && !(isPunctuationOnly t)) = false := by
  rcases h with h1 | h2 | h3
  · have hd : decide (t.length > 2) = false := by
      simpa using Nat.not_lt.mpr h1
    simp only [hd, Bool.false_and]
  · have hc : stopWords.contains t = true := by
      simpa [List.contains, List.elem_eq_mem] using h2
    simp only [hc, Bool.not_true, Bool.and_false, Bool.false_and]
  · by_cases hl : 2 < t.length
    · have h0 : decide (0 < t.length) = true := by
        simpa using Nat.lt_of_lt_of_le (by omega) (Nat.le_of_lt hl)
      simp only [isPunctuationOnly, h3, h0, Bool.and_true, Bool.true_and,
        Bool.not_true, Bool.and_false]
    · have hd : decide (t.length > 2) = false := by simpa using hl
      simp only [hd, Bool.false_and]

/-! ## Claim theorems -/

/-- C4: for every query string, `extractKeywords` returns exactly the tokens
obtained by lowercasing the query and splitting on runs of whitespace,
dropping each token whose length is ≤ 2 characters, or that exactly matches
the fixed stopword list, or that consists entirely of non-alphanumeric
characters, with the surviving tokens' order and duplicates preserved. -/
theorem c4_extractKeywords_matches_spec (query : String) :
    extractKeywords query = keywordsSpec query := by
  unfold extractKeywords keywordsSpec
  apply List.filter_congr
  intro t _
  by_cases hlen : t.length ≤ 2
  · have hd : decide (t.length > 2) = false := by
      simpa using Nat.not_lt.mpr hlen
    simp [hd, hlen]
  · have h2 : 2 < t.length := Nat.not_le.mp hlen
    have h0 : decide (0 < t.length) = true := by
      simpa using Nat.lt_of_lt_of_le (by omega) (Nat.le_of_lt h2)
    have hd : decide (t.length > 2) = true := by simpa using h2
    simp [isPunctuationOnly, hd, h0, hlen, Bool.and_assoc]

/-- C5 counterexample: on the query `"How do I reset my password?"` the code
does *not* return `["reset", "password"]` — the trailing question mark is
kept, because only tokens made entirely of punctuation are dropped. -/
theorem c5_counterexample :
    extractKeywords "How do I reset my password?" ≠ ["reset", "password"] := by
  decide

/-- C5 amended: `extractKeywords "How do I reset my password?"` returns
exactly `["reset", "password?"]`, so the fallback search attempts the term
`"reset"` first and, only if it yields zero hits, then attempts
`"password?"`. -/
theorem c5_amended_keywords :
    extractKeywords "How do I reset my password?" = ["reset", "password?"] ∧
    (searchDocuments "https://wiki.example.com"
        "How do I reset my password?" 3 4000
        (fun i => if i = 0 then .ok (.array [])
          else .ok (.array [⟨⟨some "doc1", some "Reset", none⟩, some "ctx"⟩]))
        (fun _ => .failure)).2.searchCalls.map (fun c => c.query)
      = ["reset", "password?"] :=
  ⟨rfl, rfl⟩

/-- C1: the fallback loop iterates the extracted keywords in order, issues
one upstream search call per keyword only while the accumulated result list
is still empty, stops at the first keyword whose call returns at least one
hit, and the final result consists of exactly that single call's hits. -/
theorem c1_short_circuit_fallback (instanceUrl query : String)
    (topK maxChars : Int) (searchOracle : Nat → SearchOutcome)
    (docOracle : Option String → DocFetchOutcome)
    (j : Nat) (hits : List SearchHit)
    (hj : j < (extractKeywords query).length)
    (hprev : ∀ k, k < j → ∃ d, searchOracle k = .ok d ∧ attemptHits d = [])
    (hwin : searchOracle j = .ok (.array hits)) (hne : hits ≠ []) :
    searchDocuments instanceUrl query topK maxChars searchOracle docOracle
      = (.ok (hits.map (mkSummary instanceUrl maxChars docOracle)),
         ⟨((extractKeywords query).take (j + 1)).map
            (mkSearchCall instanceUrl topK),
          hits.map (fun h => h.document.id)⟩) := by
  unfold searchDocuments
  exact searchLoop_firstWin instanceUrl topK maxChars searchOracle docOracle
    j (extractKeywords query) 0 hits hj (by simpa using hprev)
    (by simpa using hwin) hne

/-- Witness for C1 at a concrete input: the first keyword attempt returns
zero hits, the second returns one hit, and the result is exactly the second
call's hit, with one upstream call per attempted keyword. -/
theorem c1_witness :
    1 < (extractKeywords "alpha beta").length ∧
    searchDocuments "https://wiki.example.com" "alpha beta" 3 4000
        (fun i => if i = 0 then .ok (.array [])
          else .ok (.array [⟨⟨some "doc1", some "T", none⟩, some "ctx"⟩]))
        (fun _ => .success (some ⟨some "full text"⟩))
      = (.ok [⟨"doc1", "T", "full text", "https://wiki.example.com/doc/doc1"⟩],
         ⟨[⟨"https://wiki.example.com/api/documents.search", "alpha", 3, 0⟩,
           ⟨"https://wiki.example.com/api/documents.search", "beta", 3, 0⟩],
          [some "doc1"]⟩) := by
  refine ⟨by decide, ?_⟩
  have h := c1_short_circuit_fallback "https://wiki.example.com" "alpha beta"
    3 4000
    (fun i => if i = 0 then .ok (.array [])
      else .ok (.array [⟨⟨some "doc1", some "T", none⟩, some "ctx"⟩]))
    (fun _ => .success (some ⟨some "full text"⟩))
    1 [⟨⟨some "doc1", some "T", none⟩, some "ctx"⟩]
    (by decide)
    (by
      intro k hk
      match k, hk with
      | 0, _ => exact ⟨.array [], rfl, rfl⟩)
    rfl (by decide)
  exact h.trans (by decide)

/-- C9: for every query whose whitespace-split tokens are all stopwords,
tokens of length ≤ 2, or punctuation-only tokens, `extractKeywords` returns
an empty sequence, and `searchDocuments` then returns an empty list while
issuing zero upstream calls, without raising an error. -/
theorem c9_all_stopword_query (instanceUrl query : String)
    (topK maxChars : Int) (searchOracle : Nat → SearchOutcome)
    (docOracle : Option String → DocFetchOutcome)
    (h : ∀ t ∈ splitWs (jsToLower query),
      t.length ≤ 2 ∨ t ∈ stopWords ∨
        t.data.all (fun c => !(isAsciiAlphanumeric c)) = true) :
    extractKeywords query = [] ∧
    searchDocuments instanceUrl query topK maxChars searchOracle docOracle
      = (.ok [], emptyTrace) := by
  have hk : extractKeywords query = [] := by
    unfold extractKeywords
    apply List.filter_eq_nil_iff.mpr
    intro t ht
    simpa using keyword_filter_false t (h t ht)
  refine ⟨hk, ?_⟩
  unfold searchDocuments
  rw [hk]
  rfl

/-- Witness for C9: a query made only of stopwords, short tokens and
punctuation yields no keywords, no upstream call and an empty, error-free
result. -/
theorem c9_witness :
    (∀ t ∈ splitWs (jsToLower "How do I ?? at an"),
      t.length ≤ 2 ∨ t ∈ stopWords ∨
        t.data.all (fun c => !(isAsciiAlphanumeric c)) = true) ∧
    extractKeywords "How do I ?? at an" = [] ∧
    searchDocuments "https://wiki.example.com" "How do I ?? at an" 3 4000
        (fun _ => .ok .absent) (fun _ => .failure)
      = (.ok [], emptyTrace) :=
  ⟨by decide,
   c9_all_stopword_query "https://wiki.example.com" "How do I ?? at an" 3 4000
     (fun _ => .ok .absent) (fun _ => .failure) (by decide)⟩

/-- C10: an upstream search attempt that succeeds at the HTTP level but
whose `data.data` is absent or not an array is treated as yielding zero
hits: the accumulated result list is passed on unchanged, no detail fetch is
issued for that attempt, and the loop proceeds to the next keyword without
raising an error. -/
theorem c10_non_array_data (instanceUrl : String) (topK maxChars : Int)
    (searchOracle : Nat → SearchOutcome)
    (docOracle : Option String → DocFetchOutcome)
    (searchTerm : String) (keywordsRest : List String) (i : Nat)
    (documents : List DocumentSummary) (data : DataField)
    (hdocs : documents = [])
    (hdata : data = .absent ∨ data = .nonArray)
    (ho : searchOracle i = .ok data) :
    searchLoop instanceUrl topK maxChars searchOracle docOracle
        (searchTerm :: keywordsRest) i documents
      = ((searchLoop instanceUrl topK maxChars searchOracle docOracle
            keywordsRest (i + 1) documents).1,
         ⟨mkSearchCall instanceUrl topK searchTerm ::
            (searchLoop instanceUrl topK maxChars searchOracle docOracle
              keywordsRest (i + 1) documents).2.searchCalls,
          (searchLoop instanceUrl topK maxChars searchOracle docOracle
            keywordsRest (i + 1) documents).2.docFetches⟩) := by
  subst hdocs
  rcases hdata with rfl | rfl
  · exact searchLoop_cons_skip instanceUrl topK maxChars searchOracle
      docOracle searchTerm keywordsRest i .absent ho rfl
  · exact searchLoop_cons_skip instanceUrl topK maxChars searchOracle
      docOracle searchTerm keywordsRest i .nonArray ho rfl

/-- Witness for C10: with every attempt answering a non-array `data.data`,
the loop walks all keywords, fetches no documents, and ends with an empty
result and no error. -/
theorem c10_witness :
    searchLoop "https://wiki.example.com" 3 4000 (fun _ => .ok .nonArray)
        (fun _ => .failure) ["alpha", "beta"] 0 []
      = (.ok [],
         ⟨[⟨"https://wiki.example.com/api/documents.search", "alpha", 3, 0⟩,
           ⟨"https://wiki.example.com/api/documents.search", "beta", 3, 0⟩],
          []⟩) := by
  rw [c10_non_array_data "https://wiki.example.com" 3 4000
    (fun _ => .ok .nonArray) (fun _ => .failure) "alpha" ["beta"] 0 []
    .nonArray rfl (Or.inr rfl) rfl]
  decide

/-- C2 counterexample: with the caller-supplied (type-checked but never
clamped) value `maxChars = -1`, a successful search returns a summary whose
`text` is the empty string, and `0 ≤ -1` is false — so not every returned
`text` satisfies `length(text) ≤ maxChars`. -/
theorem c2_counterexample :
    (searchDocuments "https://wiki.example.com" "password" 3 (-1)
        (fun _ => .ok (.array [⟨⟨some "id1", some "T", none⟩, some "some context"⟩]))
        (fun _ => .failure)).1
      = .ok [⟨"id1", "T", "", "https://wiki.example.com/doc/id1"⟩] ∧
    ¬ (((("" : String).length) : Int) ≤ -1) :=
  ⟨by decide, by decide⟩

/-- C2 amended: every `text` in a successful result satisfies
`length(text) ≤ max maxChars 0` — the advertised bound `length ≤ maxChars`
holds for every non-negative `maxChars` (clamping is indeed never applied),
but a negative `maxChars` yields the empty text, whose length 0 exceeds the
negative bound. -/
theorem c2_amended_truncation (instanceUrl query : String)
    (topK maxChars : Int) (searchOracle : Nat → SearchOutcome)
    (docOracle : Option String → DocFetchOutcome)
    (docs : List DocumentSummary) (tr : Trace)
    (h : searchDocuments instanceUrl query topK maxChars searchOracle docOracle
      = (.ok docs, tr)) :
    ∀ d ∈ docs, ((d.text.length : Int)) ≤ max maxChars 0 := by
  intro d hd
  rcases searchLoop_mem_shape instanceUrl topK maxChars searchOracle docOracle
    (extractKeywords query) 0 [] docs tr h d hd with hmem | ⟨hit, rfl⟩
  · cases hmem
  · exact mkSummary_text_le instanceUrl maxChars docOracle hit

/-- Witness for C2 amended, at `maxChars = 4000` and a single hit whose full
text is 9 characters long. -/
theorem c2_amended_witness :
    ((("full text" : String).length : Int)) ≤ max (4000 : Int) 0 := by
  have h := c2_amended_truncation "https://wiki.example.com" "alpha" 3 4000
    (fun _ => .ok (.array [⟨⟨some "doc1", some "T", none⟩, some "ctx"⟩]))
    (fun _ => .success (some ⟨some "full text"⟩))
    [⟨"doc1", "T", "full text", "https://wiki.example.com/doc/doc1"⟩]
    ⟨[⟨"https://wiki.example.com/api/documents.search", "alpha", 3, 0⟩],
     [some "doc1"]⟩
    (by decide)
  simpa using h ⟨"doc1", "T", "full text", "https://wiki.example.com/doc/doc1"⟩
    (by decide)

/-- C3 counterexample: when the configured instance URL carries a trailing
slash, the returned `url` is built from the *raw* value (line 116 uses
`this.instanceUrl`), producing a double slash — not from the slash-stripped
value the claim describes. -/
theorem c3_counterexample :
    (searchDocuments "https://wiki.example.com/" "password" 3 4000
        (fun _ => .ok (.array [⟨⟨some "id1", some "T", some "abc"⟩, some "ctx"⟩]))
        (fun _ => .failure)).1
      = .ok [⟨"id1", "T", "ctx", "https://wiki.example.com//doc/abc"⟩] ∧
    "https://wiki.example.com//doc/abc"
      ≠ stripTrailingSlash "https://wiki.example.com/" ++ "/doc/" ++ "abc" :=
  ⟨by decide, by decide⟩

/-- C3 amended: every returned summary's `url` equals the *raw* configured
instance URL (trailing slash not stripped) concatenated with `"/doc/"` and
the hit's `urlId`, falling back to its `id`, then `""`; the trailing slash
is stripped only when building API endpoint URLs. -/
theorem c3_amended_raw_url (instanceUrl query : String)
    (topK maxChars : Int) (searchOracle : Nat → SearchOutcome)
    (docOracle : Option String → DocFetchOutcome)
    (docs : List DocumentSummary) (tr : Trace)
    (h : searchDocuments instanceUrl query topK maxChars searchOracle docOracle
      = (.ok docs, tr)) :
    ∀ d ∈ docs, ∃ hit : SearchHit,
      d.url = instanceUrl ++ "/doc/"
        ++ jsOrStr hit.document.urlId (jsOrStr hit.document.id "") := by
  intro d hd
  rcases searchLoop_mem_shape instanceUrl topK maxChars searchOracle docOracle
    (extractKeywords query) 0 [] docs tr h d hd with hmem | ⟨hit, rfl⟩
  · cases hmem
  · exact ⟨hit, mkSummary_url instanceUrl maxChars docOracle hit⟩

/-- Witness for C3 amended: at the concrete run with a trailing slash the
returned `url` is the raw instance URL (double slash kept) plus the
hit's `urlId`. -/
theorem c3_amended_witness :
    ∃ hit : SearchHit,
      ("https://wiki.example.com//doc/abc" : String)
        = "https://wiki.example.com/" ++ "/doc/"
            ++ jsOrStr hit.document.urlId (jsOrStr hit.document.id "") := by
  have h := c3_amended_raw_url "https://wiki.example.com/" "password" 3 4000
    (fun _ => .ok (.array [⟨⟨some "id1", some "T", some "abc"⟩, some "ctx"⟩]))
    (fun _ => .failure)
    [⟨"id1", "T", "ctx", "https://wiki.example.com//doc/abc"⟩]
    ⟨[⟨"https://wiki.example.com/api/documents.search", "password", 3, 0⟩],
     [some "id1"]⟩
    (by decide)
  simpa using h ⟨"id1", "T", "ctx", "https://wiki.example.com//doc/abc"⟩
    (by decide)

/-- C8: `getDocument` never throws — on failure it returns the null
sentinel; for each hit whose detail fetch yields null, the summary's `text`
is that hit's own context snippet truncated to `maxChars` (the item is
neither omitted nor null: the winning attempt still returns one summary per
hit, built per-hit and hence independently), and the whole search still
succeeds, so the per-document failure never surfaces as an error. -/
theorem c8_detail_fetch_recovery (instanceUrl : String) (topK maxChars : Int)
    (searchOracle : Nat → SearchOutcome)
    (docOracle : Option String → DocFetchOutcome)
    (searchTerm : String) (keywordsRest : List String) (i : Nat)
    (hits : List SearchHit) (hne : hits ≠ [])
    (ho : searchOracle i = .ok (.array hits)) :
    getDocument .failure = none ∧
    (searchLoop instanceUrl topK maxChars searchOracle docOracle
        (searchTerm :: keywordsRest) i []).1
      = .ok (hits.map (mkSummary instanceUrl maxChars docOracle)) ∧
    ∀ hit ∈ hits, getDocument (docOracle hit.document.id) = none →
      (mkSummary instanceUrl maxChars docOracle hit).text
        = jsSubstring0 (jsOrStr hit.context "") maxChars := by
  refine ⟨rfl, ?_, ?_⟩
  · rw [searchLoop_cons_win instanceUrl topK maxChars searchOracle docOracle
      searchTerm keywordsRest i hits hne ho]
  · intro hit _ hfd
    simp [mkSummary, hfd]

/-- Witness for C8: three hits, the middle hit's detail fetch fails; the
result still has all three items and the middle one carries its snippet. -/
theorem c8_witness :
    ([⟨⟨some "a", some "A", none⟩, some "ctxa"⟩,
      ⟨⟨some "b", some "B", none⟩, some "ctxb"⟩,
      ⟨⟨some "c", some "C", none⟩, some "ctxc"⟩] ≠ ([] : List SearchHit)) ∧
    (searchLoop "https://wiki.example.com" 3 4000
        (fun _ => .ok (.array
          [⟨⟨some "a", some "A", none⟩, some "ctxa"⟩,
           ⟨⟨some "b", some "B", none⟩, some "ctxb"⟩,
           ⟨⟨some "c", some "C", none⟩, some "ctxc"⟩]))
        (fun id => if id = some "b" then .failure
          else .success (some ⟨some "full"⟩))
        ["alpha"] 0 []).1
      = .ok [⟨"a", "A", "full", "https://wiki.example.com/doc/a"⟩,
             ⟨"b", "B", "ctxb", "https://wiki.example.com/doc/b"⟩,
             ⟨"c", "C", "full", "https://wiki.example.com/doc/c"⟩] ∧
    (mkSummary "https://wiki.example.com" 4000
        (fun id => if id = some "b" then .failure
          else .success (some ⟨some "full"⟩))
        ⟨⟨some "b", some "B", none⟩, some "ctxb"⟩).text = "ctxb" := by
  have h := c8_detail_fetch_recovery "https://wiki.example.com" 3 4000
    (fun _ => .ok (.array
      [⟨⟨some "a", some "A", none⟩, some "ctxa"⟩,
       ⟨⟨some "b", some "B", none⟩, some "ctxb"⟩,
       ⟨⟨some "c", some "C", none⟩, some "ctxc"⟩]))
    (fun id => if id = some "b" then .failure
      else .success (some ⟨some "full"⟩))
    "alpha" [] 0
    [⟨⟨some "a", some "A", none⟩, some "ctxa"⟩,
     ⟨⟨some "b", some "B", none⟩, some "ctxb"⟩,
     ⟨⟨some "c", some "C", none⟩, some "ctxc"⟩]
    (by decide) rfl
  refine ⟨by decide, h.2.1.trans (by decide), ?_⟩
  exact (h.2.2 ⟨⟨some "b", some "B", none⟩, some "ctxb"⟩
    (by decide) rfl).trans (by decide)

/-- C6: in the `call_tool` handler, `top_k` is taken to be 3 whenever the
supplied `top_k` is not a number and `max_chars` 4000 whenever the supplied
`max_chars` is not a number; numeric values are passed to the search
function unchanged — the schema bounds are never enforced, only the type is
checked. -/
theorem c6_defaults_and_passthrough (query : String) (tk mc : JsValue)
    (searchFn : String → Int → Int →
      Except ThrownError (List DocumentSummary) × Trace) :
    handleCallTool
        ⟨"search_documents",
         .obj [("query", .str query), ("top_k", tk), ("max_chars", mc)]⟩
        searchFn
      = (wrapSearchError
          (searchFn query (resolveTopK tk) (resolveMaxChars mc)).1,
         (searchFn query (resolveTopK tk) (resolveMaxChars mc)).2) ∧
    (jsTypeof tk ≠ "number" → resolveTopK tk = 3) ∧
    (jsTypeof mc ≠ "number" → resolveMaxChars mc = 4000) ∧
    (∀ n : Int, resolveTopK (.num n) = n ∧ resolveMaxChars (.num n) = n) := by
  refine ⟨rfl, ?_, ?_, fun n => ⟨rfl, rfl⟩⟩
  · intro h
    cases tk <;> first | rfl | exact absurd rfl h
  · intro h
    cases mc <;> first | rfl | exact absurd rfl h

/-- Witness for C6: a string `top_k` falls back to 3, an absent `max_chars`
falls back to 4000, and out-of-schema numbers (99, 50000) pass through
unclamped. -/
theorem c6_witness :
    jsTypeof (JsValue.str "x") ≠ "number" ∧
    resolveTopK (JsValue.str "x") = 3 ∧
    jsTypeof JsValue.undefined ≠ "number" ∧
    resolveMaxChars JsValue.undefined = 4000 ∧
    resolveTopK (JsValue.num 99) = 99 ∧
    resolveMaxChars (JsValue.num 50000) = 50000 := by
  have h := c6_defaults_and_passthrough "q" (JsValue.str "x") JsValue.undefined
    (fun _ _ _ => (.ok [], emptyTrace))
  exact ⟨by decide, h.2.1 (by decide), by decide, h.2.2.1 (by decide),
    (h.2.2.2 99).1, (h.2.2.2 50000).2⟩

/-- C7: the `call_tool` handler rejects an unknown tool name with a
method-not-found error echoing the name, a missing or non-object
`arguments` payload with an invalid-params error, and a non-string `query`
with an invalid-params error — in all three cases before any upstream call
is made (the trace is empty). -/
theorem c7_request_validation (req : CallToolRequest)
    (searchFn : String → Int → Int →
      Except ThrownError (List DocumentSummary) × Trace) :
    (req.name ≠ "search_documents" →
      handleCallTool req searchFn
        = (.error (.mcpError .methodNotFound ("Unknown tool: " ++ req.name)),
           emptyTrace)) ∧
    (req.name = "search_documents" →
      (truthy req.arguments = false ∨ jsTypeof req.arguments ≠ "object") →
      handleCallTool req searchFn
        = (.error (.mcpError .invalidParams "Arguments must be an object"),
           emptyTrace)) ∧
    (req.name = "search_documents" →
      truthy req.arguments = true → jsTypeof req.arguments = "object" →
      jsTypeof (getField req.arguments "query") ≠ "string" →
      handleCallTool req searchFn
        = (.error (.mcpError .invalidParams "Query must be a string"),
           emptyTrace)) := by
  refine ⟨?_, ?_, ?_⟩
  · intro h
    simp [handleCallTool, h]
  · intro h1 h2
    rcases h2 with h2 | h2 <;> simp [handleCallTool, h1, h2]
  · intro h1 h2 h3 h4
    simp [handleCallTool, h1, h2, h3, h4]

/-- Witness for C7: the three rejection cases at concrete requests. -/
theorem c7_witness :
    handleCallTool ⟨"other_tool", .undefined⟩
        (fun _ _ _ => (.ok [], emptyTrace))
      = (.error (.mcpError .methodNotFound "Unknown tool: other_tool"),
         emptyTrace) ∧
    handleCallTool ⟨"search_documents", .null⟩
        (fun _ _ _ => (.ok [], emptyTrace))
      = (.error (.mcpError .invalidParams "Arguments must be an object"),
         emptyTrace) ∧
    handleCallTool ⟨"search_documents", .obj []⟩
        (fun _ _ _ => (.ok [], emptyTrace))
      = (.error (.mcpError .invalidParams "Query must be a string"),
         emptyTrace) := by
  refine ⟨?_, ?_, ?_⟩
  · exact ((c7_request_validation ⟨"other_tool", .undefined⟩
      (fun _ _ _ => (.ok [], emptyTrace))).1 (by decide)).trans (by decide)
  · exact (c7_request_validation ⟨"search_documents", .null⟩
      (fun _ _ _ => (.ok [], emptyTrace))).2.1 rfl (Or.inl rfl)
  · exact (c7_request_validation ⟨"search_documents", .obj []⟩
      (fun _ _ _ => (.ok [], emptyTrace))).2.2 rfl rfl rfl (by decide)

end MCPBridge
